import Mathlib

/-!
Shallow embedding of `ThreeShaderCanvas.js` (the `ThreeShaderCanvas` class wrapping a
three.js renderer) and proofs about its uniform table, resize handling and render loop.

JavaScript numbers are modelled as rationals (`ℚ`); the source performs only the exact
operations `+`, `-`, `* `, `/ 1000`, `/ 2` on them. The file is an ES module, so all
property writes follow strict-mode semantics: assigning a property on a primitive,
`null` or `undefined` throws a `TypeError`, which is modelled by `Option`/`none`.
-/

namespace ThreeShaderCanvas

/-- JS values as far as the wrapper manipulates them: `undefined`, `null`, `NaN`,
finite numbers, strings, booleans, and plain objects given by their ordered own
properties. Uniform-table entries are `JSValue`s: the built-ins are `{ value: v }`
records (`obj [("value", v)]`), caller-supplied construction entries are arbitrary. -/
inductive JSValue : Type where
  | undef : JSValue
  | jsNull : JSValue
  | nan : JSValue
  | num : ℚ → JSValue
  | str : String → JSValue
  | bool : Bool → JSValue
  | obj : List (String × JSValue) → JSValue

namespace JSValue

/-- Own-property lookup in an object's ordered property list. -/
def lookupProp : List (String × JSValue) → String → Option JSValue
  | [], _ => none
  | (k', v) :: rest, k => if k' = k then some v else lookupProp rest k

/-- Property write on an object's ordered property list: an existing key is updated in
place, a new key is appended (JS own-property insertion order). -/
def setPropList : List (String × JSValue) → String → JSValue → List (String × JSValue)
  | [], k, v => [(k, v)]
  | (k', v') :: rest, k, v =>
    if k' = k then (k, v) :: rest else (k', v') :: setPropList rest k v

/-- Property read `e.p` (also covering the optional chain `e?.p`, which yields
`undefined` on `null`/`undefined`). Primitives box to objects with no own properties;
built-in prototype properties are not modelled, and none of the property names the
source reads ("value") exist on any primitive prototype. -/
def getProp : JSValue → String → JSValue
  | obj props, k => (lookupProp props k).getD undef
  | _, _ => undef

/-- Strict-mode property write `e.p = v`: updates/adds the own property on an object,
throws (`none`) on primitives, `null` and `undefined`. -/
def setProp : JSValue → String → JSValue → Option JSValue
  | obj props, k, v => some (obj (setPropList props k v))
  | _, _, _ => none

/-- The loose-equality test `x == null`, true exactly for `null` and `undefined`. -/
def looseNull : JSValue → Bool
  | undef => true
  | jsNull => true
  | _ => false

/-- The numeric step of `x.value++`: `ToNumber` coercion plus one. Numbers increment;
`null` coerces to `0` and booleans to `0`/`1`; `undefined` (and, as an approximation,
strings, which the source never stores in `frame.value`) yield `NaN`. -/
def incr : JSValue → JSValue
  | num q => num (q + 1)
  | bool b => num (cond b 1 0 + 1)
  | jsNull => num 1
  | _ => nan

end JSValue

/-- `material.uniforms`: the dictionary from uniform name to stored entry. -/
def UniformTable : Type := String → Option JSValue

/-- Dictionary write `uniforms[key] = entry`. -/
def UniformTable.set (u : UniformTable) (k : String) (v : JSValue) : UniformTable :=
  fun k' => if k' = k then some v else u k'

/-- The read `uniforms[key]?.value` on a uniform dictionary: `undefined` when the key is
absent, otherwise the entry's `value` property. -/
def tableGet (u : UniformTable) (k : String) : JSValue :=
  match u k with
  | none => JSValue.undef
  | some e => e.getProp "value"

/-- A three.js vector, as used for `mesh.position`/`mesh.scale`. -/
structure Vec3 where
  x : ℚ
  y : ℚ
  z : ℚ
deriving DecidableEq

/-- The orthographic camera's frustum bounds (`new THREE.OrthographicCamera(0, 1, 0, 1,
0.01, 1000)`); the derived projection matrix itself lives in three.js and is recomputed
from these bounds by `updateProjectionMatrix`. -/
structure Camera where
  left : ℚ
  right : ℚ
  top : ℚ
  bottom : ℚ
  near : ℚ
  far : ℚ
deriving DecidableEq

/-- The component state of a `ThreeShaderCanvas` instance. `lastRenderUniforms` is an
observation field recording the uniform table exactly as the renderer saw it at the most
recent `renderer.render` call, so that "written before the render was issued" is
expressible. -/
structure ShaderCanvas where
  rendererWidth : ℚ
  rendererHeight : ℚ
  camera : Camera
  cameraPosition : Vec3
  meshPosition : Vec3
  meshScale : Vec3
  uniforms : UniformTable
  clearColor : ℚ
  isDrawing : Bool
  lastRenderUniforms : Option UniformTable

namespace ShaderCanvas

/-- `getUniform(key)`: `return this._screenMesh.material.uniforms[key]?.value;`. -/
def getUniform (c : ShaderCanvas) (k : String) : JSValue :=
  tableGet c.uniforms k

/-- `setUniform(key, value)`: insert a fresh `{ value }` record when the entry is absent
or loosely null, otherwise write the existing entry's `value` property (which throws on
a primitive entry, hence `Option`). -/
def setUniform (c : ShaderCanvas) (k : String) (v : JSValue) : Option ShaderCanvas :=
  match c.uniforms k with
  | none => some { c with uniforms := c.uniforms.set k (JSValue.obj [("value", v)]) }
  | some e =>
    if e.looseNull then
      some { c with uniforms := c.uniforms.set k (JSValue.obj [("value", v)]) }
    else
      (e.setProp "value" v).map fun e' => { c with uniforms := c.uniforms.set k e' }

/-- `applyToUniform(key, func)`: `this.setUniform(key, func(this.getUniform(key)));`. -/
def applyToUniform (c : ShaderCanvas) (k : String) (f : JSValue → JSValue) :
    Option ShaderCanvas :=
  c.setUniform k (f (c.getUniform k))

/-- `resize(newWidth, newHeight)`: renderer size, camera bounds (+
`updateProjectionMatrix`), the two size uniforms' `value` properties (plain property
writes, which throw when the entry is absent or not an object), and the mesh position
and scale. -/
def resize (c : ShaderCanvas) (newWidth newHeight : ℚ) : Option ShaderCanvas := do
  let c1 := { c with
    rendererWidth := newWidth, rendererHeight := newHeight,
    camera := { c.camera with right := newWidth, bottom := newHeight } }
  let swEntry ← c1.uniforms "screenWidth"
  let swEntry' ← swEntry.setProp "value" (JSValue.num newWidth)
  let c2 := { c1 with uniforms := c1.uniforms.set "screenWidth" swEntry' }
  let shEntry ← c2.uniforms "screenHeight"
  let shEntry' ← shEntry.setProp "value" (JSValue.num newHeight)
  let c3 := { c2 with uniforms := c2.uniforms.set "screenHeight" shEntry' }
  some { c3 with
    meshPosition := ⟨newWidth / 2, newHeight / 2, 0⟩,
    meshScale := ⟨newWidth, newHeight, 1⟩ }

/-- `getClearColor()`. -/
def getClearColor (c : ShaderCanvas) : ℚ :=
  c.clearColor

/-- `setClearColor(newColor)`. -/
def setClearColor (c : ShaderCanvas) (newColor : ℚ) : ShaderCanvas :=
  { c with clearColor := newColor }

end ShaderCanvas

/-- The loop-local state captured by the `animate` closure inside `startDrawing`. -/
structure DrawLoop where
  startTime : ℚ
  lastFrameTime : ℚ
deriving DecidableEq

/-- One invocation of the `animate` frame callback, with `now` the `Date.now()` reading
(milliseconds) of that invocation. `requestAnimationFrame(animate)` re-schedules the
callback first; the host's stream of invocations is modelled by iterating this step.
`renderer.setClearColor`/`renderer.clear` change no component state. The `deltaTime`
and `time` writes are plain property writes on the existing entries (throwing when an
entry is absent or not an object), the render snapshots the table as the renderer sees
it, then `frame.value++` and `lastFrameTime = now`. -/
def animate (c : ShaderCanvas) (l : DrawLoop) (now : ℚ) :
    Option (ShaderCanvas × DrawLoop) := do
  let dtEntry ← c.uniforms "deltaTime"
  let dtEntry' ← dtEntry.setProp "value" (JSValue.num ((now - l.lastFrameTime) / 1000))
  let u1 := c.uniforms.set "deltaTime" dtEntry'
  let tEntry ← u1 "time"
  let tEntry' ← tEntry.setProp "value" (JSValue.num ((now - l.startTime) / 1000))
  let u2 := u1.set "time" tEntry'
  let snapshot := u2
  let fEntry ← u2 "frame"
  let fEntry' ← fEntry.setProp "value" ((fEntry.getProp "value").incr)
  let u3 := u2.set "frame" fEntry'
  some ({ c with uniforms := u3, lastRenderUniforms := some snapshot },
        { l with lastFrameTime := now })

/-- Iterated frame callbacks at the given sequence of `Date.now()` readings. -/
def animateN : ShaderCanvas → DrawLoop → List ℚ → Option (ShaderCanvas × DrawLoop)
  | c, l, [] => some (c, l)
  | c, l, t :: ts => do
    let (c', l') ← animate c l t
    animateN c' l' ts

/-- `startDrawing()`. The two `Date.now()` reads initialising `startTime` and
`lastFrameTime`, and the `Date.now()` read inside the first (synchronous) `animate()`
call, are passed as `t0`, `t1`, `t2`; a real clock yields `t0 ≤ t1 ≤ t2`. Returns the
boolean result, the updated instance, and the loop state when a loop was started;
`none` models the first callback throwing. -/
def startDrawing (c : ShaderCanvas) (t0 t1 t2 : ℚ) :
    Option (Bool × ShaderCanvas × Option DrawLoop) :=
  if c.isDrawing then
    some (false, c, none)
  else
    match animate { c with isDrawing := true } ⟨t0, t1⟩ t2 with
    | some (c', l') => some (true, c', some l')
    | none => none

/-- The `ShaderMaterial` construction's built-in uniform entries. -/
def builtinUniforms : UniformTable := fun k =>
  if k = "screenWidth" then some (JSValue.obj [("value", JSValue.num 1)])
  else if k = "screenHeight" then some (JSValue.obj [("value", JSValue.num 1)])
  else if k = "time" then some (JSValue.obj [("value", JSValue.num 0)])
  else if k = "deltaTime" then some (JSValue.obj [("value", JSValue.num 0)])
  else if k = "frame" then some (JSValue.obj [("value", JSValue.num 0)])
  else none

/-- `for (const key of Object.keys(config.uniforms)) material.uniforms[key] =
config.uniforms[key];` — each caller entry is stored exactly as supplied (raw, not
wrapped in a `{ value }` record), overwriting any existing entry of the same name. -/
def mergeUniforms (u : UniformTable) : List (String × JSValue) → UniformTable
  | [] => u
  | (k, v) :: rest => mergeUniforms (u.set k v) rest

/-- The instance state as assembled by the constructor just before its `resize` call:
renderer sized `(1, 1)`, camera `new THREE.OrthographicCamera(0, 1, 0, 1, 0.01, 1000)`
positioned at `(0, 0, 100)` (the `lookAt` orientation and the geometry's
`rotateY(Math.PI)` live inside three.js and are not component state), mesh at its
three.js defaults, built-in uniforms merged with the caller's `config.uniforms`, and
`this._clearColor = config.clearColor ?? 0x555555` — assigned after `resize` in the
source, but `resize` does not read it, so initialising it here yields the same state. -/
def preResizeState (cfgUniforms : Option (List (String × JSValue)))
    (cfgClearColor : Option ℚ) : ShaderCanvas := {
  rendererWidth := 1, rendererHeight := 1,
  camera := ⟨0, 1, 0, 1, 1/100, 1000⟩,
  cameraPosition := ⟨0, 0, 100⟩,
  meshPosition := ⟨0, 0, 0⟩,
  meshScale := ⟨1, 1, 1⟩,
  uniforms := mergeUniforms builtinUniforms (cfgUniforms.getD []),
  clearColor := cfgClearColor.getD 5592405,
  isDrawing := false,
  lastRenderUniforms := none }

/-- `new ThreeShaderCanvas(config)` up to, and excluding, the `autoStart` step
(`autoStart` is the subsequent `startDrawing()` call, modelled separately, and
`autoAppend`/`autoResize` only attach DOM nodes and event listeners, which hold no
component state). `cfgUniforms` is `config.uniforms` as an ordered key/value list
(`none` when absent), `cfgClearColor` is `config.clearColor`, and `(w, h)` are the
`window.innerWidth`/`window.innerHeight` values read by the constructor's `resize`
call. Returns `none` when the initial resize throws. -/
def construct (cfgUniforms : Option (List (String × JSValue))) (cfgClearColor : Option ℚ)
    (w h : ℚ) : Option ShaderCanvas :=
  (preResizeState cfgUniforms cfgClearColor).resize w h

/-! ## Helper lemmas -/

namespace JSValue

theorem lookupProp_setPropList_self (props : List (String × JSValue)) (k : String)
    (v : JSValue) : lookupProp (setPropList props k v) k = some v := by
  induction props with
  | nil => simp [setPropList, lookupProp]
  | cons p rest ih =>
    obtain ⟨k', v'⟩ := p
    by_cases hk : k' = k
    · subst hk; simp [setPropList, lookupProp]
    · simp [setPropList, lookupProp, hk, ih]

theorem lookupProp_setPropList_ne (props : List (String × JSValue)) (k k' : String)
    (v : JSValue) (h : k' ≠ k) :
    lookupProp (setPropList props k v) k' = lookupProp props k' := by
  induction props with
  | nil => simp [setPropList, lookupProp, Ne.symm h]
  | cons p rest ih =>
    obtain ⟨k'', v'⟩ := p
    by_cases hk : k'' = k
    · subst hk; simp [setPropList, lookupProp, Ne.symm h]
    · simp [setPropList, lookupProp, hk, ih]

theorem getProp_setProp {e e' : JSValue} {k : String} {v : JSValue}
    (h : e.setProp k v = some e') : e'.getProp k = v := by
  cases e <;> simp [setProp] at h
  subst h
  simp [getProp, lookupProp_setPropList_self]

theorem getProp_setProp_ne {e e' : JSValue} {k k' : String} {v : JSValue}
    (h : e.setProp k v = some e') (hne : k' ≠ k) : e'.getProp k' = e.getProp k' := by
  cases e <;> simp [setProp] at h
  subst h
  simp [getProp, lookupProp_setPropList_ne _ _ _ _ hne]

theorem setProp_obj {e e' : JSValue} {k : String} {v : JSValue}
    (h : e.setProp k v = some e') : ∃ props, e' = JSValue.obj props := by
  cases e <;> simp [setProp] at h
  subst h
  exact ⟨_, rfl⟩

theorem setProp_of_obj (props : List (String × JSValue)) (k : String) (v : JSValue) :
    (JSValue.obj props).setProp k v = some (JSValue.obj (setPropList props k v)) := rfl

end JSValue

theorem UniformTable.set_self (u : UniformTable) (k : String) (v : JSValue) :
    u.set k v k = some v := by
  simp [UniformTable.set]

theorem UniformTable.set_ne (u : UniformTable) (k k' : String) (v : JSValue)
    (h : k' ≠ k) : u.set k v k' = u k' := by
  simp [UniformTable.set, h]

/-- The three entries the frame callback writes are objects, so its strict-mode
property writes succeed; this holds in particular after a default construction. -/
def readyUniforms (c : ShaderCanvas) : Prop :=
  (∃ p, c.uniforms "deltaTime" = some (JSValue.obj p)) ∧
  (∃ p, c.uniforms "time" = some (JSValue.obj p)) ∧
  (∃ p, c.uniforms "frame" = some (JSValue.obj p))

/-- Inversion of one successful `animate` call: the loop keeps its `startTime` and
records `lastFrameTime = now`; `deltaTime` and `time` are written as
`(now − lastFrameTime)/1000` and `(now − startTime)/1000`; the renderer's snapshot saw
exactly those values with `frame` still unincremented; `frame` is incremented
afterwards; every other uniform key and every other field is untouched. -/
theorem animate_spec {c : ShaderCanvas} {l : DrawLoop} {now : ℚ} {c' : ShaderCanvas}
    {l' : DrawLoop} (h : animate c l now = some (c', l')) :
    l'.startTime = l.startTime ∧
    l'.lastFrameTime = now ∧
    c'.getUniform "deltaTime" = JSValue.num ((now - l.lastFrameTime) / 1000) ∧
    c'.getUniform "time" = JSValue.num ((now - l.startTime) / 1000) ∧
    c'.getUniform "frame" = (c.getUniform "frame").incr ∧
    (∃ snap, c'.lastRenderUniforms = some snap ∧
      tableGet snap "deltaTime" = JSValue.num ((now - l.lastFrameTime) / 1000) ∧
      tableGet snap "time" = JSValue.num ((now - l.startTime) / 1000) ∧
      tableGet snap "frame" = c.getUniform "frame") ∧
    (∀ k, k ≠ "deltaTime" → k ≠ "time" → k ≠ "frame" → c'.uniforms k = c.uniforms k) ∧
    readyUniforms c' ∧
    c'.isDrawing = c.isDrawing ∧
    c'.camera = c.camera ∧
    c'.rendererWidth = c.rendererWidth ∧
    c'.rendererHeight = c.rendererHeight ∧
    c'.meshPosition = c.meshPosition ∧
    c'.meshScale = c.meshScale ∧
    c'.clearColor = c.clearColor := by
  rw [animate] at h
  cases hdt : c.uniforms "deltaTime" with
  | none => rw [hdt] at h; simp at h
  | some dtE =>
  rw [hdt] at h
  simp only [Option.bind_eq_bind, Option.some_bind] at h
  cases hdtE : dtE.setProp "value" (JSValue.num ((now - l.lastFrameTime) / 1000)) with
  | none => rw [hdtE] at h; simp at h
  | some dtE' =>
  rw [hdtE] at h
  simp only [Option.bind_eq_bind, Option.some_bind] at h
  rw [UniformTable.set_ne c.uniforms "deltaTime" "time" dtE' (by decide)] at h
  cases ht : c.uniforms "time" with
  | none => rw [ht] at h; simp at h
  | some tE =>
  rw [ht] at h
  simp only [Option.bind_eq_bind, Option.some_bind] at h
  cases htE : tE.setProp "value" (JSValue.num ((now - l.startTime) / 1000)) with
  | none => rw [htE] at h; simp at h
  | some tE' =>
  rw [htE] at h
  simp only [Option.bind_eq_bind, Option.some_bind] at h
  rw [UniformTable.set_ne _ "time" "frame" tE' (by decide),
    UniformTable.set_ne c.uniforms "deltaTime" "frame" dtE' (by decide)] at h
  cases hf : c.uniforms "frame" with
  | none => rw [hf] at h; simp at h
  | some fE =>
  rw [hf] at h
  simp only [Option.bind_eq_bind, Option.some_bind] at h
  cases hfE : fE.setProp "value" ((fE.getProp "value").incr) with
  | none => rw [hfE] at h; simp at h
  | some fE' =>
  rw [hfE] at h
  simp only [Option.bind_eq_bind, Option.some_bind, Option.some.injEq, Prod.mk.injEq] at h
  obtain ⟨hc', hl'⟩ := h
  subst hc'
  subst hl'
  obtain ⟨dtP', hdtP'⟩ := JSValue.setProp_obj hdtE
  obtain ⟨tP', htP'⟩ := JSValue.setProp_obj htE
  obtain ⟨fP', hfP'⟩ := JSValue.setProp_obj hfE
  refine ⟨rfl, rfl, ?_, ?_, ?_, ⟨_, rfl, ?_, ?_, ?_⟩, ?_, ⟨?_, ?_, ?_⟩,
    rfl, rfl, rfl, rfl, rfl, rfl, rfl⟩
  · simp [ShaderCanvas.getUniform, tableGet, UniformTable.set_self,
      UniformTable.set_ne _ _ _ _ (by decide : ("deltaTime" : String) ≠ "time"),
      UniformTable.set_ne _ _ _ _ (by decide : ("deltaTime" : String) ≠ "frame"),
      JSValue.getProp_setProp hdtE]
  · simp [ShaderCanvas.getUniform, tableGet, UniformTable.set_self,
      UniformTable.set_ne _ _ _ _ (by decide : ("time" : String) ≠ "frame"),
      JSValue.getProp_setProp htE]
  · simp [ShaderCanvas.getUniform, tableGet, UniformTable.set_self, hf,
      JSValue.getProp_setProp hfE]
  · simp [tableGet, UniformTable.set_self,
      UniformTable.set_ne _ _ _ _ (by decide : ("deltaTime" : String) ≠ "time"),
      JSValue.getProp_setProp hdtE]
  · simp [tableGet, UniformTable.set_self, JSValue.getProp_setProp htE]
  · simp [ShaderCanvas.getUniform, tableGet, hf,
      UniformTable.set_ne _ _ _ _ (by decide : ("frame" : String) ≠ "time"),
      UniformTable.set_ne _ _ _ _ (by decide : ("frame" : String) ≠ "deltaTime")]
  · intro k hk1 hk2 hk3
    simp [UniformTable.set_ne _ _ _ _ hk3, UniformTable.set_ne _ _ _ _ hk2,
      UniformTable.set_ne _ _ _ _ hk1]
  · exact ⟨dtP', by
      simp [UniformTable.set_self, hdtP',
        UniformTable.set_ne _ _ _ _ (by decide : ("deltaTime" : String) ≠ "time"),
        UniformTable.set_ne _ _ _ _ (by decide : ("deltaTime" : String) ≠ "frame")]⟩
  · exact ⟨tP', by
      simp [UniformTable.set_self, htP',
        UniformTable.set_ne _ _ _ _ (by decide : ("time" : String) ≠ "frame")]⟩
  · exact ⟨fP', by simp [UniformTable.set_self, hfP']⟩

/-- When the three written entries are objects, the frame callback does not throw. -/
theorem animate_total {c : ShaderCanvas} (l : DrawLoop) (now : ℚ)
    (hready : readyUniforms c) : ∃ x, animate c l now = some x := by
  obtain ⟨⟨dtP, hdt⟩, ⟨tP, ht⟩, ⟨fP, hf⟩⟩ := hready
  rw [← Option.isSome_iff_exists]
  rw [animate, hdt]
  simp only [Option.bind_eq_bind, Option.some_bind, JSValue.setProp_of_obj]
  rw [UniformTable.set_ne _ _ _ _ (by decide : ("time" : String) ≠ "deltaTime"), ht]
  simp only [Option.bind_eq_bind, Option.some_bind, JSValue.setProp_of_obj]
  rw [UniformTable.set_ne _ _ _ _ (by decide : ("frame" : String) ≠ "time"),
    UniformTable.set_ne _ _ _ _ (by decide : ("frame" : String) ≠ "deltaTime"), hf]
  simp only [Option.bind_eq_bind, Option.some_bind, JSValue.setProp_of_obj,
    Option.isSome_some]

/-- Inversion of one successful `resize` call: renderer and camera take the new
dimensions (`left`/`top` untouched), the two size uniforms hold the new values, the
mesh is re-centred and re-scaled, and everything else is untouched. -/
theorem resize_spec {c : ShaderCanvas} {w h : ℚ} {c' : ShaderCanvas}
    (hr : c.resize w h = some c') :
    c'.rendererWidth = w ∧
    c'.rendererHeight = h ∧
    c'.camera = { c.camera with right := w, bottom := h } ∧
    c'.getUniform "screenWidth" = JSValue.num w ∧
    c'.getUniform "screenHeight" = JSValue.num h ∧
    c'.meshPosition = ⟨w / 2, h / 2, 0⟩ ∧
    c'.meshScale = ⟨w, h, 1⟩ ∧
    (∀ k, k ≠ "screenWidth" → k ≠ "screenHeight" → c'.uniforms k = c.uniforms k) ∧
    (∃ p, c'.uniforms "screenWidth" = some (JSValue.obj p)) ∧
    (∃ p, c'.uniforms "screenHeight" = some (JSValue.obj p)) ∧
    c'.isDrawing = c.isDrawing ∧
    c'.clearColor = c.clearColor ∧
    c'.lastRenderUniforms = c.lastRenderUniforms := by
  simp only [ShaderCanvas.resize] at hr
  cases hsw : c.uniforms "screenWidth" with
  | none => rw [hsw] at hr; simp at hr
  | some swE =>
  rw [hsw] at hr
  simp only [Option.bind_eq_bind, Option.some_bind] at hr
  cases hswE : swE.setProp "value" (JSValue.num w) with
  | none => rw [hswE] at hr; simp at hr
  | some swE' =>
  rw [hswE] at hr
  simp only [Option.bind_eq_bind, Option.some_bind] at hr
  rw [UniformTable.set_ne _ _ _ _
    (by decide : ("screenHeight" : String) ≠ "screenWidth")] at hr
  cases hsh : c.uniforms "screenHeight" with
  | none => rw [hsh] at hr; simp at hr
  | some shE =>
  rw [hsh] at hr
  simp only [Option.bind_eq_bind, Option.some_bind] at hr
  cases hshE : shE.setProp "value" (JSValue.num h) with
  | none => rw [hshE] at hr; simp at hr
  | some shE' =>
  rw [hshE] at hr
  simp only [Option.bind_eq_bind, Option.some_bind, Option.some.injEq] at hr
  subst hr
  obtain ⟨swP', hswP'⟩ := JSValue.setProp_obj hswE
  obtain ⟨shP', hshP'⟩ := JSValue.setProp_obj hshE
  refine ⟨rfl, rfl, rfl, ?_, ?_, rfl, rfl, ?_, ⟨swP', ?_⟩, ⟨shP', ?_⟩, rfl, rfl, rfl⟩
  · simp [ShaderCanvas.getUniform, tableGet, UniformTable.set_self,
      UniformTable.set_ne _ _ _ _ (by decide : ("screenWidth" : String) ≠ "screenHeight"),
      JSValue.getProp_setProp hswE]
  · simp [ShaderCanvas.getUniform, tableGet, UniformTable.set_self,
      JSValue.getProp_setProp hshE]
  · intro k h1 h2
    simp [UniformTable.set_ne _ _ _ _ h2, UniformTable.set_ne _ _ _ _ h1]
  · simp [UniformTable.set_self, hswP',
      UniformTable.set_ne _ _ _ _ (by decide : ("screenWidth" : String) ≠ "screenHeight")]
  · simp [UniformTable.set_self, hshP']

/-- When the two size entries are objects, `resize` does not throw; this holds in
every reachable state, since the constructor itself performs a successful `resize`
and no later operation can replace an object entry by a non-object. -/
theorem resize_total {c : ShaderCanvas} (w h : ℚ)
    (hsw : ∃ p, c.uniforms "screenWidth" = some (JSValue.obj p))
    (hsh : ∃ p, c.uniforms "screenHeight" = some (JSValue.obj p)) :
    ∃ c', c.resize w h = some c' := by
  obtain ⟨swP, hswP⟩ := hsw
  obtain ⟨shP, hshP⟩ := hsh
  rw [← Option.isSome_iff_exists]
  simp only [ShaderCanvas.resize]
  rw [hswP]
  simp only [Option.bind_eq_bind, Option.some_bind, JSValue.setProp_of_obj]
  rw [UniformTable.set_ne _ _ _ _
    (by decide : ("screenHeight" : String) ≠ "screenWidth"), hshP]
  simp only [Option.bind_eq_bind, Option.some_bind, JSValue.setProp_of_obj,
    Option.isSome_some]

/-- Keys the caller's config does not mention are untouched by the merge loop. -/
theorem mergeUniforms_notMem (cfg : List (String × JSValue)) : ∀ (u : UniformTable)
    (k : String), k ∉ cfg.map Prod.fst → mergeUniforms u cfg k = u k := by
  induction cfg with
  | nil => intro u k _; rfl
  | cons p rest ih =>
    intro u k hk
    obtain ⟨k', v⟩ := p
    simp only [List.map_cons, List.mem_cons, not_or] at hk
    rw [mergeUniforms, ih _ _ hk.2, UniformTable.set_ne _ _ _ _ hk.1]

/-- A caller entry whose key occurs only once is stored verbatim by the merge loop,
replacing whatever entry (built-in included) was there before. -/
theorem mergeUniforms_cons_self (u : UniformTable) (k : String) (v : JSValue)
    (cfg : List (String × JSValue)) (hk : k ∉ cfg.map Prod.fst) :
    mergeUniforms u ((k, v) :: cfg) k = some v := by
  rw [mergeUniforms, mergeUniforms_notMem cfg _ _ hk, UniformTable.set_self]

/-- The five reserved built-in uniform names. -/
def builtinKeys : List String :=
  ["screenWidth", "screenHeight", "time", "deltaTime", "frame"]

theorem builtinUniforms_eq_none {k : String} (hk : k ∉ builtinKeys) :
    builtinUniforms k = none := by
  simp only [builtinKeys, List.mem_cons, List.not_mem_nil, or_false, not_or] at hk
  obtain ⟨h1, h2, h3, h4, h5⟩ := hk
  simp [builtinUniforms, h1, h2, h3, h4, h5]

/-- `setUniform` on an absent key inserts a fresh `{ value }` record. -/
theorem setUniform_eq_of_none {c : ShaderCanvas} {k : String} (v : JSValue)
    (he : c.uniforms k = none) :
    c.setUniform k v =
      some { c with uniforms := c.uniforms.set k (JSValue.obj [("value", v)]) } := by
  rw [ShaderCanvas.setUniform, he]

/-- `setUniform` on a loosely-null entry (`null`/`undefined`) inserts a fresh
`{ value }` record. -/
theorem setUniform_eq_of_looseNull {c : ShaderCanvas} {k : String} {e : JSValue}
    (v : JSValue) (he : c.uniforms k = some e) (hl : e.looseNull = true) :
    c.setUniform k v =
      some { c with uniforms := c.uniforms.set k (JSValue.obj [("value", v)]) } := by
  rw [ShaderCanvas.setUniform, he]
  simp [hl]

/-- `setUniform` on an entry whose `value` property can be written overwrites it. -/
theorem setUniform_eq_of_setProp {c : ShaderCanvas} {k : String} {e e' : JSValue}
    {v : JSValue} (he : c.uniforms k = some e) (hl : e.looseNull = false)
    (hsp : e.setProp "value" v = some e') :
    c.setUniform k v = some { c with uniforms := c.uniforms.set k e' } := by
  rw [ShaderCanvas.setUniform, he]
  simp [hl, hsp]

/-- `setUniform` on a raw primitive entry throws (strict mode). -/
theorem setUniform_eq_of_throw {c : ShaderCanvas} {k : String} {e : JSValue}
    (v : JSValue) (he : c.uniforms k = some e) (hl : e.looseNull = false)
    (hsp : e.setProp "value" v = none) :
    c.setUniform k v = none := by
  rw [ShaderCanvas.setUniform, he]
  simp [hl, hsp]

/-- `setUniform` only touches the entry it is given. -/
theorem setUniform_ne {c c' : ShaderCanvas} {k : String} {v : JSValue}
    (h : c.setUniform k v = some c') {k' : String} (hk : k' ≠ k) :
    c'.uniforms k' = c.uniforms k' := by
  cases he : c.uniforms k with
  | none =>
    rw [setUniform_eq_of_none v he, Option.some.injEq] at h
    subst h
    exact UniformTable.set_ne _ _ _ _ hk
  | some e =>
    cases hl : e.looseNull with
    | true =>
      rw [setUniform_eq_of_looseNull v he hl, Option.some.injEq] at h
      subst h
      exact UniformTable.set_ne _ _ _ _ hk
    | false =>
      cases hsp : e.setProp "value" v with
      | none => rw [setUniform_eq_of_throw v he hl hsp] at h; exact absurd h (by simp)
      | some e' =>
        rw [setUniform_eq_of_setProp he hl hsp, Option.some.injEq] at h
        subst h
        exact UniformTable.set_ne _ _ _ _ hk

/-- After a successful `setUniform`, the written key holds a `some` entry and every
other key is untouched; so `setUniform` preserves presence of every key. -/
theorem setUniform_present {c c' : ShaderCanvas} {k : String} {v : JSValue}
    (h : c.setUniform k v = some c') (k' : String) (hp : c.uniforms k' ≠ none) :
    c'.uniforms k' ≠ none := by
  by_cases hk : k' = k
  · subst hk
    cases he : c.uniforms k' with
    | none =>
      rw [setUniform_eq_of_none v he, Option.some.injEq] at h
      subst h
      simp [UniformTable.set_self]
    | some e =>
      cases hl : e.looseNull with
      | true =>
        rw [setUniform_eq_of_looseNull v he hl, Option.some.injEq] at h
        subst h
        simp [UniformTable.set_self]
      | false =>
        cases hsp : e.setProp "value" v with
        | none => rw [setUniform_eq_of_throw v he hl hsp] at h; exact absurd h (by simp)
        | some e' =>
          rw [setUniform_eq_of_setProp he hl hsp, Option.some.injEq] at h
          subst h
          simp [UniformTable.set_self]
  · rw [setUniform_ne h hk]
    exact hp

/-- `animate` preserves presence of every uniform key. -/
theorem animate_present {c c' : ShaderCanvas} {l l' : DrawLoop} {now : ℚ}
    (h : animate c l now = some (c', l')) (k : String) (hp : c.uniforms k ≠ none) :
    c'.uniforms k ≠ none := by
  obtain ⟨_, _, _, _, _, _, huntouched, ⟨⟨pd, hd⟩, ⟨pt, ht⟩, ⟨pf, hf⟩⟩, _⟩ :=
    animate_spec h
  by_cases h1 : k = "deltaTime"
  · subst h1; rw [hd]; simp
  by_cases h2 : k = "time"
  · subst h2; rw [ht]; simp
  by_cases h3 : k = "frame"
  · subst h3; rw [hf]; simp
  rw [huntouched k h1 h2 h3]
  exact hp

/-- `resize` preserves presence of every uniform key. -/
theorem resize_present {c c' : ShaderCanvas} {w h : ℚ}
    (hr : c.resize w h = some c') (k : String) (hp : c.uniforms k ≠ none) :
    c'.uniforms k ≠ none := by
  obtain ⟨_, _, _, _, _, _, _, huntouched, ⟨psw, hsw⟩, ⟨psh, hsh⟩, _⟩ := resize_spec hr
  by_cases h1 : k = "screenWidth"
  · subst h1; rw [hsw]; simp
  by_cases h2 : k = "screenHeight"
  · subst h2; rw [hsh]; simp
  rw [huntouched k h1 h2]
  exact hp

/-- Iterating the frame callback `ts.length` times adds `ts.length` to the numeric
`frame` uniform. -/
theorem animateN_frame {ts : List ℚ} : ∀ {c : ShaderCanvas} {l : DrawLoop}
    {c' : ShaderCanvas} {l' : DrawLoop} {q : ℚ},
    animateN c l ts = some (c', l') → c.getUniform "frame" = JSValue.num q →
    c'.getUniform "frame" = JSValue.num (q + ts.length) := by
  induction ts with
  | nil =>
    intro c l c' l' q h hq
    rw [animateN] at h
    simp only [Option.some.injEq, Prod.mk.injEq] at h
    obtain ⟨hc, hl⟩ := h
    subst hc
    simpa using hq
  | cons t ts ih =>
    intro c l c' l' q h hq
    rw [animateN] at h
    cases ha : animate c l t with
    | none => rw [ha] at h; simp at h
    | some x =>
      rw [ha] at h
      simp only [Option.bind_eq_bind, Option.some_bind] at h
      obtain ⟨c₁, l₁⟩ := x
      obtain ⟨_, _, _, _, hfr, _⟩ := animate_spec ha
      have hq₁ : c₁.getUniform "frame" = JSValue.num (q + 1) := by
        rw [hfr, hq, JSValue.incr]
      have := ih h hq₁
      rw [this]
      congr 1
      simp only [List.length_cons, Nat.cast_add, Nat.cast_one]
      ring

/-- A concrete reachable instance:
`new ThreeShaderCanvas({autoStart: false, autoResize: false})` in a 2×1 viewport,
i.e. the constructor's state after its initial `resize` and before any loop start. -/
def sampleCanvas : ShaderCanvas :=
  ((preResizeState none none).resize 2 1).getD (preResizeState none none)

theorem construct_sampleCanvas : construct none none 2 1 = some sampleCanvas := rfl

theorem sampleCanvas_ready : readyUniforms sampleCanvas :=
  ⟨⟨_, rfl⟩, ⟨_, rfl⟩, ⟨_, rfl⟩⟩

/-! ## The claims -/

/-- Claim C2: for every `w, h > 0`, after `resize(w, h)` the `screenWidth` and
`screenHeight` uniforms read back as `w` and `h`, the camera's `right`/`bottom` bounds
are `w`/`h` while `left`/`top` remain `0`, and the quad is positioned at
`(w/2, h/2, 0)` with scale `(w, h, 1)`. The hypotheses that the two size entries are
objects (and `left = top = 0`) hold in every reachable state: the constructor's own
`resize` call establishes them and no operation undoes them. -/
theorem claim_C2 (c : ShaderCanvas) (w h : ℚ) (hw : 0 < w) (hh : 0 < h)
    (hsw : ∃ p, c.uniforms "screenWidth" = some (JSValue.obj p))
    (hsh : ∃ p, c.uniforms "screenHeight" = some (JSValue.obj p))
    (hleft : c.camera.left = 0) (htop : c.camera.top = 0) :
    ∃ c', c.resize w h = some c' ∧
      c'.getUniform "screenWidth" = JSValue.num w ∧
      c'.getUniform "screenHeight" = JSValue.num h ∧
      c'.camera.right = w ∧ c'.camera.bottom = h ∧
      c'.camera.left = 0 ∧ c'.camera.top = 0 ∧
      c'.meshPosition = ⟨w / 2, h / 2, 0⟩ ∧
      c'.meshScale = ⟨w, h, 1⟩ := by
  obtain ⟨c', hc'⟩ := resize_total w h hsw hsh
  obtain ⟨_, _, hcam, h4, h5, h6, h7, _⟩ := resize_spec hc'
  refine ⟨c', hc', h4, h5, by rw [hcam], by rw [hcam], ?_, ?_, h6, h7⟩
  · rw [hcam]; exact hleft
  · rw [hcam]; exact htop

/-- Witness for C2, at the freshly constructed 2×1 instance and `resize(640, 480)`. -/
theorem claim_C2_witness :
    ∃ c', sampleCanvas.resize 640 480 = some c' ∧
      c'.getUniform "screenWidth" = JSValue.num 640 ∧
      c'.getUniform "screenHeight" = JSValue.num 480 ∧
      c'.camera.right = 640 ∧ c'.camera.bottom = 480 ∧
      c'.camera.left = 0 ∧ c'.camera.top = 0 ∧
      c'.meshPosition = ⟨640 / 2, 480 / 2, 0⟩ ∧
      c'.meshScale = ⟨640, 480, 1⟩ :=
  claim_C2 sampleCanvas 640 480 (by norm_num) (by norm_num)
    ⟨_, rfl⟩ ⟨_, rfl⟩ rfl rfl

/-- Claim C5 fails as stated: on the reachable instance
`new ThreeShaderCanvas({uniforms: {foo: 5}, autoStart: false})` (viewport 2×1), the
entry for `"foo"` is the raw primitive `5`, so `setUniform("foo", 7)` takes the
overwrite branch and the strict-mode write `uniforms.foo.value = 7` throws a
`TypeError` — the round-trip never yields a value. -/
theorem claim_C5_counterexample :
    ((construct (some [("foo", JSValue.num 5)]) none 2 1).map
        fun c => c.setUniform "foo" (JSValue.num 7)) = some none ∧
    (construct (some [("foo", JSValue.num 5)]) none 2 1).isSome = true :=
  ⟨rfl, rfl⟩

/-- Claim C5 (amended): `setUniform(k, v)` followed by `getUniform(k)` returns exactly
`v`, provided the current entry for `k` is absent, loosely null, or an object — which
covers every key except those carrying a raw primitive supplied through the
constructor's `uniforms` map, where the overwrite throws instead. -/
theorem claim_C5 (c : ShaderCanvas) (k : String) (v : JSValue)
    (hentry : c.uniforms k = none ∨
      (∃ e, c.uniforms k = some e ∧ e.looseNull = true) ∨
      (∃ props, c.uniforms k = some (JSValue.obj props))) :
    ∃ c', c.setUniform k v = some c' ∧ c'.getUniform k = v := by
  rcases hentry with hnone | ⟨e, he, hl⟩ | ⟨props, hobj⟩
  · refine ⟨_, setUniform_eq_of_none v hnone, ?_⟩
    simp [ShaderCanvas.getUniform, tableGet, UniformTable.set_self, JSValue.getProp,
      JSValue.lookupProp]
  · refine ⟨_, setUniform_eq_of_looseNull v he hl, ?_⟩
    simp [ShaderCanvas.getUniform, tableGet, UniformTable.set_self, JSValue.getProp,
      JSValue.lookupProp]
  · refine ⟨_, setUniform_eq_of_setProp hobj (by cases props <;> rfl)
      (JSValue.setProp_of_obj props "value" v), ?_⟩
    simp [ShaderCanvas.getUniform, tableGet, UniformTable.set_self, JSValue.getProp,
      JSValue.lookupProp_setPropList_self]

/-- Witness for the amended C5, at the constructed instance and a fresh key. -/
theorem claim_C5_witness :
    ∃ c', sampleCanvas.setUniform "foo" (JSValue.num 7) = some c' ∧
      c'.getUniform "foo" = JSValue.num 7 :=
  claim_C5 sampleCanvas "foo" (JSValue.num 7) (Or.inl rfl)

/-- Claim C8: `applyToUniform(k, f)` is exactly `setUniform(k, f(getUniform(k)))` — the
source method body is that very composition — and when `k` was never set, `f` is
applied to the absent value `undefined`. -/
theorem claim_C8 (c : ShaderCanvas) (k : String) (f : JSValue → JSValue) :
    c.applyToUniform k f = c.setUniform k (f (c.getUniform k)) ∧
    (c.uniforms k = none → c.applyToUniform k f = c.setUniform k (f JSValue.undef)) := by
  refine ⟨rfl, fun hnone => ?_⟩
  have hu : c.getUniform k = JSValue.undef := by
    rw [ShaderCanvas.getUniform, tableGet, hnone]
  rw [ShaderCanvas.applyToUniform, hu]

/-- Witness for C8 at the constructed instance and an absent key. -/
theorem claim_C8_witness :
    sampleCanvas.applyToUniform "foo" (fun _ => JSValue.num 3) =
      sampleCanvas.setUniform "foo" (JSValue.num 3) :=
  (claim_C8 sampleCanvas "foo" (fun _ => JSValue.num 3)).2 rfl

/-- Claim C9: a key that is neither a built-in, nor supplied through the constructor's
`uniforms` map, is absent after construction, and `getUniform` on it returns
`undefined` rather than failing (`getUniform` is modelled as a pure observer — it
cannot change the state). -/
theorem claim_C9 (cfgU : Option (List (String × JSValue))) (cfgC : Option ℚ)
    (w h : ℚ) (c : ShaderCanvas) (k : String)
    (hc : construct cfgU cfgC w h = some c)
    (hk : k ∉ builtinKeys)
    (hcfg : k ∉ (cfgU.getD []).map Prod.fst) :
    c.uniforms k = none ∧ c.getUniform k = JSValue.undef := by
  have hk' := hk
  simp only [builtinKeys, List.mem_cons, List.not_mem_nil, or_false, not_or] at hk'
  obtain ⟨h1, h2, _, _, _⟩ := hk'
  obtain ⟨_, _, _, _, _, _, _, huntouched, _⟩ := resize_spec hc
  have htab : c.uniforms k = none := by
    rw [huntouched k h1 h2]
    show mergeUniforms builtinUniforms ((cfgU.getD [])) k = none
    rw [mergeUniforms_notMem _ _ _ hcfg]
    exact builtinUniforms_eq_none hk
  refine ⟨htab, ?_⟩
  rw [ShaderCanvas.getUniform, tableGet, htab]

/-- Witness for C9 at the constructed instance and the unset key `"foo"`. -/
theorem claim_C9_witness :
    sampleCanvas.uniforms "foo" = none ∧
      sampleCanvas.getUniform "foo" = JSValue.undef :=
  claim_C9 none none 2 1 sampleCanvas "foo" construct_sampleCanvas
    (by decide) (by simp)

/-- Claim C1: each frame callback writes `deltaTime = (now − lastFrameTime)/1000` and
`time = (now − startTime)/1000` into their uniforms before the render is issued (the
renderer's snapshot already contains them), and sets `lastFrameTime = now` at the end;
hence across two consecutive callbacks the second `deltaTime` equals the gap between
the two callbacks' clock readings (in seconds), and the written `time` values are
non-decreasing whenever the clock is. -/
theorem claim_C1 (c c₁ c₂ : ShaderCanvas) (l l₁ l₂ : DrawLoop) (now₁ now₂ : ℚ)
    (h1 : animate c l now₁ = some (c₁, l₁))
    (h2 : animate c₁ l₁ now₂ = some (c₂, l₂)) :
    (∃ snap, c₁.lastRenderUniforms = some snap ∧
      tableGet snap "deltaTime" = JSValue.num ((now₁ - l.lastFrameTime) / 1000) ∧
      tableGet snap "time" = JSValue.num ((now₁ - l.startTime) / 1000)) ∧
    c₁.getUniform "deltaTime" = JSValue.num ((now₁ - l.lastFrameTime) / 1000) ∧
    c₁.getUniform "time" = JSValue.num ((now₁ - l.startTime) / 1000) ∧
    l₁.lastFrameTime = now₁ ∧
    c₂.getUniform "deltaTime" = JSValue.num ((now₂ - now₁) / 1000) ∧
    (now₁ ≤ now₂ → ∃ q₁ q₂, c₁.getUniform "time" = JSValue.num q₁ ∧
      c₂.getUniform "time" = JSValue.num q₂ ∧ q₁ ≤ q₂) := by
  obtain ⟨hs1, hlf1, hdt1, ht1, _, ⟨snap, hsnap, hsdt, hst, _⟩, _⟩ := animate_spec h1
  obtain ⟨hs2, hlf2, hdt2, ht2, _⟩ := animate_spec h2
  refine ⟨⟨snap, hsnap, hsdt, hst⟩, hdt1, ht1, hlf1, ?_, ?_⟩
  · rw [hdt2, hlf1]
  · intro hle
    refine ⟨_, _, ht1, by rw [ht2, hs1], ?_⟩
    have : now₁ - l.startTime ≤ now₂ - l.startTime := by linarith
    linarith

/-- Two concrete consecutive frame callbacks on the constructed instance, with clock
readings 100 and 250 (milliseconds). -/
def sampleFrame1 : ShaderCanvas × DrawLoop :=
  (animate sampleCanvas ⟨0, 0⟩ 100).getD (sampleCanvas, ⟨0, 0⟩)

def sampleFrame2 : ShaderCanvas × DrawLoop :=
  (animate sampleFrame1.1 sampleFrame1.2 250).getD sampleFrame1

/-- Witness for C1: the second of two callbacks at 100 ms and 250 ms writes a
`deltaTime` of 150 ms expressed in seconds. -/
theorem claim_C1_witness :
    sampleFrame2.1.getUniform "deltaTime" = JSValue.num ((250 - 100) / 1000) :=
  (claim_C1 sampleCanvas sampleFrame1.1 sampleFrame2.1 ⟨0, 0⟩ sampleFrame1.2
    sampleFrame2.2 100 250 rfl rfl).2.2.2.2.1

/-- Claim C3 fails as stated: on the reachable instance
`new ThreeShaderCanvas({uniforms: {deltaTime: 5}, autoStart: false})` (viewport 2×1)
the very first `startDrawing()` call does not return `true` — the first, synchronous,
`animate()` invocation hits the raw primitive `deltaTime` entry, and the strict-mode
write `uniforms.deltaTime.value = …` throws a `TypeError` before `startDrawing`
reaches its `return true`. -/
theorem claim_C3_counterexample :
    ((construct (some [("deltaTime", JSValue.num 5)]) none 2 1).map
        fun c => c.isDrawing) = some false ∧
    ((construct (some [("deltaTime", JSValue.num 5)]) none 2 1).map
        fun c => startDrawing c 0 0 0) = some none :=
  ⟨rfl, rfl⟩

/-- Claim C3 (amended): on an instance whose three written built-in entries are intact
(not shadowed by raw constructor-supplied values — true for every normally constructed
instance), the first `startDrawing()` call returns `true`; and on any instance whose
loop is already running, every call returns `false` and leaves the state untouched —
at most one loop is ever started. -/
theorem claim_C3 (c : ShaderCanvas) (t0 t1 t2 : ℚ)
    (hnot : c.isDrawing = false) (hready : readyUniforms c) :
    (∃ c' l, startDrawing c t0 t1 t2 = some (true, c', some l) ∧
      c'.isDrawing = true ∧
      ∀ s0 s1 s2, startDrawing c' s0 s1 s2 = some (false, c', none)) ∧
    (∀ d : ShaderCanvas, d.isDrawing = true →
      ∀ s0 s1 s2, startDrawing d s0 s1 s2 = some (false, d, none)) := by
  have hsub : ∀ d : ShaderCanvas, d.isDrawing = true →
      ∀ s0 s1 s2, startDrawing d s0 s1 s2 = some (false, d, none) := by
    intro d hd s0 s1 s2
    simp [startDrawing, hd]
  have hready' : readyUniforms { c with isDrawing := true } := hready
  obtain ⟨⟨c₁, l₁⟩, hA⟩ := animate_total ⟨t0, t1⟩ t2 hready'
  have hstart : startDrawing c t0 t1 t2 = some (true, c₁, some l₁) := by
    rw [startDrawing, if_neg (by simp [hnot]), hA]
  obtain ⟨_, _, _, _, _, _, _, _, hdrw, _⟩ := animate_spec hA
  have hdrw' : c₁.isDrawing = true := hdrw
  exact ⟨⟨c₁, l₁, hstart, hdrw', hsub c₁ hdrw'⟩, hsub⟩

/-- Witness for the amended C3: a second call on the already-started instance
returns `false` and changes nothing. -/
theorem claim_C3_witness :
    startDrawing { sampleCanvas with isDrawing := true } 5 6 7 =
      some (false, { sampleCanvas with isDrawing := true }, none) :=
  (claim_C3 sampleCanvas 0 0 0 rfl sampleCanvas_ready).2
    { sampleCanvas with isDrawing := true } rfl 5 6 7

/-- Claim C4: `frame` starts at `0` after construction (when the caller's config does
not itself supply a `frame` entry — the claim's own proviso), each callback increments
it by exactly 1 after the render (the renderer's snapshot still holds the
pre-increment value), `N` callbacks bring it to `N`, and neither `resize` nor a
`setUniform` on another key changes it. -/
theorem claim_C4 (cfgU : Option (List (String × JSValue))) (cfgC : Option ℚ)
    (w h : ℚ) (c : ShaderCanvas) (hc : construct cfgU cfgC w h = some c)
    (hnf : "frame" ∉ (cfgU.getD []).map Prod.fst) :
    c.getUniform "frame" = JSValue.num 0 ∧
    (∀ l ts c' l', animateN c l ts = some (c', l') →
      c'.getUniform "frame" = JSValue.num ts.length) ∧
    (∀ (d : ShaderCanvas) l now d' l' q, animate d l now = some (d', l') →
      d.getUniform "frame" = JSValue.num q →
      d'.getUniform "frame" = JSValue.num (q + 1) ∧
      ∃ snap, d'.lastRenderUniforms = some snap ∧
        tableGet snap "frame" = JSValue.num q) ∧
    (∀ (d : ShaderCanvas) w' h' d', d.resize w' h' = some d' →
      d'.getUniform "frame" = d.getUniform "frame") ∧
    (∀ (d : ShaderCanvas) k v d', k ≠ "frame" → d.setUniform k v = some d' →
      d'.getUniform "frame" = d.getUniform "frame") := by
  have h0 : c.getUniform "frame" = JSValue.num 0 := by
    obtain ⟨_, _, _, _, _, _, _, huntouched, _⟩ := resize_spec hc
    rw [ShaderCanvas.getUniform, tableGet, huntouched "frame" (by decide) (by decide)]
    show (match mergeUniforms builtinUniforms (cfgU.getD []) "frame" with
      | none => JSValue.undef
      | some e => e.getProp "value") = JSValue.num 0
    rw [mergeUniforms_notMem _ _ _ hnf]
    rfl
  refine ⟨h0, ?_, ?_, ?_, ?_⟩
  · intro l ts c' l' hN
    have := animateN_frame hN h0
    rwa [zero_add] at this
  · intro d l now d' l' q ha hq
    obtain ⟨_, _, _, _, hfr, ⟨snap, hsnap, _, _, hsfr⟩, _⟩ := animate_spec ha
    refine ⟨?_, snap, hsnap, by rw [hsfr, hq]⟩
    rw [hfr, hq]
    rfl
  · intro d w' h' d' hr
    obtain ⟨_, _, _, _, _, _, _, huntouched, _⟩ := resize_spec hr
    rw [ShaderCanvas.getUniform, ShaderCanvas.getUniform, tableGet, tableGet,
      huntouched "frame" (by decide) (by decide)]
  · intro d k v d' hk hs
    rw [ShaderCanvas.getUniform, ShaderCanvas.getUniform, tableGet, tableGet,
      setUniform_ne hs (Ne.symm hk)]

/-- Witness for C4 at the freshly constructed instance. -/
theorem claim_C4_witness : sampleCanvas.getUniform "frame" = JSValue.num 0 :=
  (claim_C4 none none 2 1 sampleCanvas construct_sampleCanvas (by simp)).1

/-- Claim C7 fails as stated: `startDrawing` reads `Date.now()` twice — once for
`startTime`, once for `lastFrameTime` — and the clock may tick between the two reads.
In the execution below the reads are 0 and 1 (a valid non-decreasing clock trace, with
the first callback also at 1): the loop starts with `startTime = 0 ≠ 1 =
lastFrameTime`, observable in the first frame's uniforms, which get `time = 1/1000`
but `deltaTime = 0` — had both recorded timestamps been equal, the two writes
`(now − startTime)/1000` and `(now − lastFrameTime)/1000` would coincide. -/
theorem claim_C7_counterexample :
    ((0 : ℚ) ≤ 1 ∧ (1 : ℚ) ≤ 1) ∧
    (startDrawing sampleCanvas 0 1 1).map
        (fun r => (r.1, r.2.1.getUniform "time", r.2.1.getUniform "deltaTime")) =
      some (true, JSValue.num ((1 - 0) / 1000), JSValue.num ((1 - 1) / 1000)) ∧
    JSValue.num ((1 - 0) / 1000) ≠ JSValue.num ((1 - 1) / 1000) := by
  refine ⟨⟨by norm_num, le_refl 1⟩, rfl, fun hcon => ?_⟩
  exact absurd (JSValue.num.inj hcon) (by norm_num)

/-- Claim C7 (amended): `startDrawing` records `startTime` from a first clock read
`t0` and `lastFrameTime` from a second read `t1`; with a non-decreasing clock
`t0 ≤ t1`, so on the first frame (clock `t2`) the written `deltaTime =
(t2 − t1)/1000` is at most the written `time = (t2 − t0)/1000`, with equality
whenever the two reads coincide (`t0 = t1`) — equality of the two recorded
timestamps holds exactly when the clock does not advance between the reads, not on
every execution. -/
theorem claim_C7 (c c' : ShaderCanvas) (l : DrawLoop) (t0 t1 t2 : ℚ) (h01 : t0 ≤ t1)
    (h : startDrawing c t0 t1 t2 = some (true, c', some l)) :
    l.startTime = t0 ∧ l.lastFrameTime = t2 ∧
    c'.getUniform "time" = JSValue.num ((t2 - t0) / 1000) ∧
    c'.getUniform "deltaTime" = JSValue.num ((t2 - t1) / 1000) ∧
    (t2 - t1) / 1000 ≤ (t2 - t0) / 1000 ∧
    (t0 = t1 → c'.getUniform "time" = c'.getUniform "deltaTime") := by
  rw [startDrawing] at h
  cases hd : c.isDrawing with
  | true => rw [hd] at h; simp at h
  | false =>
  rw [hd] at h
  simp only [Bool.false_eq_true, if_false] at h
  cases ha : animate { c with isDrawing := true } ⟨t0, t1⟩ t2 with
  | none => rw [ha] at h; simp at h
  | some x =>
  rw [ha] at h
  obtain ⟨c₁, l₁⟩ := x
  simp only [Option.some.injEq, Prod.mk.injEq, true_and] at h
  obtain ⟨hc₁, hl₁⟩ := h
  subst hc₁
  subst hl₁
  obtain ⟨hs, hlf, hdt, ht, _⟩ := animate_spec ha
  refine ⟨hs, hlf, ht, hdt, ?_, fun heq => by rw [ht, hdt, heq]⟩
  have hstep : t2 - t1 ≤ t2 - t0 := by linarith
  linarith

/-- A concrete started loop for the C7 witness: `startDrawing` on the constructed
instance with clock reads 5, 5 and first frame at 9. -/
def sampleStarted : ShaderCanvas × DrawLoop :=
  (animate { sampleCanvas with isDrawing := true } ⟨5, 5⟩ 9).getD
    ({ sampleCanvas with isDrawing := true }, ⟨5, 5⟩)

/-- Witness for the amended C7, at clock reads 5, 5, 9. -/
theorem claim_C7_witness :
    sampleStarted.1.getUniform "time" = JSValue.num ((9 - 5) / 1000) :=
  (claim_C7 sampleCanvas sampleStarted.1 sampleStarted.2 5 5 9 (by norm_num)
    rfl).2.2.1

/-- The merge loop never removes a key. -/
theorem mergeUniforms_present (cfg : List (String × JSValue)) : ∀ (u : UniformTable)
    (k : String), u k ≠ none → mergeUniforms u cfg k ≠ none := by
  induction cfg with
  | nil => intro u k hp; exact hp
  | cons p rest ih =>
    intro u k hp
    obtain ⟨k', v⟩ := p
    rw [mergeUniforms]
    apply ih
    by_cases hk : k = k'
    · subst hk; rw [UniformTable.set_self]; simp
    · rw [UniformTable.set_ne _ _ _ _ hk]; exact hp

theorem builtinUniforms_present {k : String} (hk : k ∈ builtinKeys) :
    builtinUniforms k ≠ none := by
  simp only [builtinKeys, List.mem_cons, List.not_mem_nil, or_false] at hk
  rcases hk with h | h | h | h | h <;> subst h <;> simp [builtinUniforms]

/-- Claim C6 fails as stated, on two of its clauses. First, caller-supplied
configuration entries can and do replace the reserved built-in entries: on
`new ThreeShaderCanvas({uniforms: {time: 123}, autoStart: false})` (viewport 2×1), the
merge loop `material.uniforms[key] = config.uniforms[key]` stores the raw `123` over
the built-in `{ value: 0 }` record for `"time"`, and `getUniform("time")` then reads
`undefined` instead of the built-in value. Second, the size uniforms do not "always"
equal the Surface's current dimensions: on the plainly constructed 2×1 instance,
`setUniform("screenWidth", 999)` succeeds and leaves the renderer at 2×1 while
`getUniform("screenWidth")` now reads `999 ≠ 2` — the operation desynchronises them. -/
theorem claim_C6_counterexample :
    (((construct (some [("time", JSValue.num 123)]) none 2 1).map
        fun c => c.uniforms "time") = some (some (JSValue.num 123)) ∧
      ((construct (some [("time", JSValue.num 123)]) none 2 1).map
        fun c => c.getUniform "time") = some JSValue.undef ∧
      some (JSValue.num 123) ≠ some (JSValue.obj [("value", JSValue.num 0)])) ∧
    ((sampleCanvas.setUniform "screenWidth" (JSValue.num 999)).map
        (fun d => (d.getUniform "screenWidth", d.rendererWidth, d.rendererHeight))) =
      some (JSValue.num 999, 2, 1) ∧
    JSValue.num 999 ≠ JSValue.num 2 := by
  refine ⟨⟨rfl, rfl, fun hcon => ?_⟩, rfl, fun hcon => ?_⟩
  · exact JSValue.noConfusion (Option.some.inj hcon)
  · exact absurd (JSValue.num.inj hcon) (by norm_num)

/-- Claim C6 (amended): after construction the five built-in uniform keys are present,
and every operation — `setUniform`, `applyToUniform`, `resize`, the frame callback,
`startDrawing`, `setClearColor` — preserves presence of every key, so the built-ins
remain present forever; however, a caller-supplied configuration entry with a reserved
name does replace the built-in entry (it is stored verbatim); and the size uniforms
equal the renderer's current dimensions after every successful `resize` (hence after
construction), rather than at literally all times. -/
theorem claim_C6 :
    (∀ cfgU cfgC (w h : ℚ) c, construct cfgU cfgC w h = some c →
      ∀ k, k ∈ builtinKeys → c.uniforms k ≠ none) ∧
    (∀ (c c' : ShaderCanvas) k v k', c.setUniform k v = some c' →
      c.uniforms k' ≠ none → c'.uniforms k' ≠ none) ∧
    (∀ (c c' : ShaderCanvas) k f k', c.applyToUniform k f = some c' →
      c.uniforms k' ≠ none → c'.uniforms k' ≠ none) ∧
    (∀ (c c' : ShaderCanvas) (w h : ℚ) k, c.resize w h = some c' →
      c.uniforms k ≠ none → c'.uniforms k ≠ none) ∧
    (∀ (c c' : ShaderCanvas) l l' (now : ℚ) k, animate c l now = some (c', l') →
      c.uniforms k ≠ none → c'.uniforms k ≠ none) ∧
    (∀ (c : ShaderCanvas) (t0 t1 t2 : ℚ) b c' ol k,
      startDrawing c t0 t1 t2 = some (b, c', ol) →
      c.uniforms k ≠ none → c'.uniforms k ≠ none) ∧
    (∀ (c : ShaderCanvas) (q : ℚ) k, (c.setClearColor q).uniforms k = c.uniforms k) ∧
    (∀ (u : UniformTable) k v cfg, k ∉ cfg.map Prod.fst →
      mergeUniforms u ((k, v) :: cfg) k = some v) ∧
    (∀ (c c' : ShaderCanvas) (w h : ℚ), c.resize w h = some c' →
      c'.getUniform "screenWidth" = JSValue.num c'.rendererWidth ∧
      c'.getUniform "screenHeight" = JSValue.num c'.rendererHeight) := by
  refine ⟨?_, ?_, ?_, ?_, ?_, ?_, ?_, ?_, ?_⟩
  · intro cfgU cfgC w h c hc k hk
    exact resize_present hc k
      (mergeUniforms_present _ _ _ (builtinUniforms_present hk))
  · intro c c' k v k' hs hp
    exact setUniform_present hs k' hp
  · intro c c' k f k' hs hp
    exact setUniform_present hs k' hp
  · intro c c' w h k hr hp
    exact resize_present hr k hp
  · intro c c' l l' now k ha hp
    exact animate_present ha k hp
  · intro c t0 t1 t2 b c' ol k hs hp
    rw [startDrawing] at hs
    cases hd : c.isDrawing with
    | true =>
      rw [hd] at hs
      simp only [if_true] at hs
      simp only [Option.some.injEq, Prod.mk.injEq] at hs
      obtain ⟨-, hc', -⟩ := hs
      subst hc'
      exact hp
    | false =>
      rw [hd] at hs
      simp only [Bool.false_eq_true, if_false] at hs
      cases ha : animate { c with isDrawing := true } ⟨t0, t1⟩ t2 with
      | none => rw [ha] at hs; simp at hs
      | some x =>
        rw [ha] at hs
        obtain ⟨c₁, l₁⟩ := x
        simp only [Option.some.injEq, Prod.mk.injEq] at hs
        obtain ⟨-, hc', -⟩ := hs
        subst hc'
        exact animate_present ha k hp
  · intro c q k
    rfl
  · intro u k v cfg hk
    exact mergeUniforms_cons_self u k v cfg hk
  · intro c c' w h hr
    obtain ⟨hrw, hrh, _, hsw, hsh, _⟩ := resize_spec hr
    exact ⟨by rw [hsw, hrw], by rw [hsh, hrh]⟩

/-- Witness exercising the amended C6 at a concrete instance and key. -/
theorem claim_C6_witness : sampleCanvas.uniforms "time" ≠ none :=
  claim_C6.1 none none 2 1 sampleCanvas construct_sampleCanvas "time" (by decide)

/-- Claim C10: a caller uniform supplied at construction is stored verbatim (raw, not
wrapped), `setUniform` on an absent key stores the `{ value: v }` wrapper instead, and
`getUniform` on a constructor-supplied key reads the supplied entry's `value` property
— `undefined` unless the caller supplied an object with a `value` field — so the
store/read round-trip fails for plain constructor-supplied values, e.g. `{bar: 5}`. -/
theorem claim_C10 (cfgRest : List (String × JSValue)) (cfgC : Option ℚ) (w h : ℚ)
    (c : ShaderCanvas) (k : String) (v : JSValue)
    (hc : construct (some ((k, v) :: cfgRest)) cfgC w h = some c)
    (hk : k ∉ cfgRest.map Prod.fst)
    (h1 : k ≠ "screenWidth") (h2 : k ≠ "screenHeight") :
    c.uniforms k = some v ∧
    c.getUniform k = v.getProp "value" ∧
    (∀ (d : ShaderCanvas) k' v', d.uniforms k' = none →
      d.setUniform k' v' =
        some { d with uniforms := d.uniforms.set k' (JSValue.obj [("value", v')]) }) ∧
    ((construct (some [("bar", JSValue.num 5)]) none 2 1).map
        (fun d => d.getUniform "bar") = some JSValue.undef ∧
      JSValue.undef ≠ JSValue.num 5) := by
  obtain ⟨_, _, _, _, _, _, _, huntouched, _⟩ := resize_spec hc
  have htab : c.uniforms k = some v := by
    rw [huntouched k h1 h2]
    show mergeUniforms builtinUniforms ((k, v) :: cfgRest) k = some v
    exact mergeUniforms_cons_self _ _ _ _ hk
  refine ⟨htab, ?_, ?_, rfl, fun hcon => JSValue.noConfusion hcon⟩
  · rw [ShaderCanvas.getUniform, tableGet, htab]
  · intro d k' v' hnone
    exact setUniform_eq_of_none v' hnone

/-- The instance `new ThreeShaderCanvas({uniforms: {bar: 5}, autoStart: false})`
(viewport 2×1) for the C10 witness. -/
def rawBarCanvas : ShaderCanvas :=
  ((preResizeState (some [("bar", JSValue.num 5)]) none).resize 2 1).getD
    (preResizeState (some [("bar", JSValue.num 5)]) none)

/-- Witness for C10: the raw `5` is stored verbatim under `"bar"`. -/
theorem claim_C10_witness : rawBarCanvas.uniforms "bar" = some (JSValue.num 5) :=
  (claim_C10 [] none 2 1 rawBarCanvas "bar" (JSValue.num 5) rfl (by simp)
    (by decide) (by decide)).1

end ThreeShaderCanvas
